import Mathlib

/-!
# Verification of `absl/random/internal/seed_material.h`

A shallow embedding of the seed-material core of the random subsystem:
block arithmetic (`SeedBitsToBlocks`), the entropy constants, the
generator-backed reader (`ReadSeedMaterialFromURBG`), the seed mixer
(`MixIntoSeedMaterial`) and the salt cache (`GetSaltMaterial`).

C++ `size_t` arithmetic is modelled as `Nat` arithmetic modulo `2 ^ 64`;
`uint32_t` words are `Nat` values below `2 ^ 32`.  Pointers that may be null
are modelled by `Option`; a span is its list of words, with `none` standing
for a view whose `data()` is null (such a view has no words).  The mutation
performed through a span is modelled by returning the buffer after the call.
-/

namespace RandomInternal

/-- Embedding of `SeedBitsToBlocks` (seed_material.h, lines 35–37):
`return (seed_size + 31) / 32;` computed in `size_t`, whose addition wraps
modulo `2 ^ 64`. -/
def SeedBitsToBlocks (seed_size : Nat) : Nat :=
  ((seed_size + 31) % 2 ^ 64) / 32

/-- The block count as the spec words it: `ceil(bits / 32)` over unbounded
non-negative integers, written `(bits + 32 - 1) / 32` in `Nat`.  Stated from
the spec for comparison with the source's `SeedBitsToBlocks`. -/
def blocksNeeded_spec (bits : Nat) : Nat :=
  (bits + 32 - 1) / 32

/-- Embedding of `kEntropyBitsNeeded` (seed_material.h, line 41). -/
def kEntropyBitsNeeded : Nat := 256

/-- Embedding of `kEntropyBlocksNeeded` (seed_material.h, lines 45–46). -/
def kEntropyBlocksNeeded : Nat :=
  SeedBitsToBlocks kEntropyBitsNeeded

/-- One iteration per word of the loop body of `ReadSeedMaterialFromURBG`
(seed_material.h, lines 77–79): starting from generator state `g`, produce
`n` words `seed_value = distr(*urbg)` in order, returning the words written
and the generator state after the loop.  `distr : σ → Nat × σ` is one
application of the `FastUniformBits` distribution to the generator: the
32-bit variate it returns together with the generator's advanced state. -/
def fillWords {σ : Type} (distr : σ → Nat × σ) : σ → Nat → List Nat × σ
  | g, 0 => ([], g)
  | g, n + 1 =>
    ((distr g).1 :: (fillWords distr (distr g).2 n).1,
      (fillWords distr (distr g).2 n).2)

/-- The generator state after `k` applications of the distribution. -/
def advance {σ : Type} (distr : σ → Nat × σ) (g : σ) : Nat → σ
  | 0 => g
  | k + 1 => (distr (advance distr g k)).2

/-- The `k`-th (0-based) variate drawn from generator state `g`. -/
def fubVariate {σ : Type} (distr : σ → Nat × σ) (g : σ) (k : Nat) : Nat :=
  (distr (advance distr g k)).1

/-- Embedding of `ReadSeedMaterialFromURBG` (seed_material.h, lines 67–81),
release (`NDEBUG`) semantics for the `assert`.  `urbg = none` models a null
generator pointer; `values = none` models a span whose `data()` is null.
If either is null the function returns `false` and touches nothing;
otherwise every word of the span is overwritten by `distr(*urbg)` and the
function returns `true`.  Result: (return value, buffer after the call,
generator after the call). -/
def ReadSeedMaterialFromURBG {σ : Type} (distr : σ → Nat × σ)
    (urbg : Option σ) (values : Option (List Nat)) :
    Bool × Option (List Nat) × Option σ :=
  match urbg, values with
  | some g, some vs =>
    (true, some (fillWords distr g vs.length).1,
      some (fillWords distr g vs.length).2)
  | _, _ => (false, values, urbg)

/-- A distribution step instrumented to count its own applications: the
state carries the number of times the distribution has been applied to the
generator. -/
def countingDistr {σ : Type} (distr : σ → Nat × σ) : σ × Nat → Nat × (σ × Nat) :=
  fun sc => ((distr sc.1).1, ((distr sc.1).2, sc.2 + 1))

/-- A concrete distribution step on `σ = Nat`, used to evaluate the reader
on concrete inputs: the variate is the state reduced to 32 bits and the
state advances by one. -/
def cDistr (s : Nat) : Nat × Nat :=
  (s % 2 ^ 32, s + 1)

/-- Truncation to a 32-bit word (`uint32_t` arithmetic wraps mod `2 ^ 32`). -/
def u32 (n : Nat) : Nat := n % 2 ^ 32

/-- Modelled from the spec: initial value of the running accumulator of the
seed mixer; the body of `MixIntoSeedMaterial` lives in `seed_material.cc`,
which is not among the sources, only its declaration (seed_material.h,
lines 90–91) is. -/
def kInitVal : Nat := 0x43b0d7e5

/-- Modelled from the spec: odd multiplier stepping the running accumulator
of the seed mixer. -/
def kHashMul : Nat := 0x931e8875

/-- Modelled from the spec: first odd mixing multiplier of the seed mixer. -/
def kMixMulL : Nat := 0xca01f9dd

/-- Modelled from the spec: second odd mixing multiplier of the seed mixer. -/
def kMixMulR : Nat := 0x4973f715

/-- Modelled from the spec: half-word shift used by the mixer's shift-xor
steps. -/
def kShiftSize : Nat := 16

/-- Modelled from the spec: update of one material word by one hash word —
multiplication by odd constants, shift-xor stirring, and exclusive-or, in
`uint32_t` arithmetic. -/
def mixWord (hash elem : Nat) : Nat :=
  let e1 := u32 ((elem ^^^ hash) * kMixMulL)
  let e2 := e1 ^^^ (e1 / 2 ^ kShiftSize)
  let e3 := u32 (e2 * kMixMulR)
  e3 ^^^ (e3 / 2 ^ kShiftSize)

/-- Modelled from the spec: inner loop of the seed mixer — for one input
word `seqVal`, update every material word with a hash derived from the
input word and the running accumulator `hc`, stepping the accumulator once
per material word.  Returns the accumulator after the pass and the updated
material. -/
def mixWithSeqVal (seqVal : Nat) : Nat → List Nat → Nat × List Nat
  | hc, [] => (hc, [])
  | hc, e :: es =>
    ((mixWithSeqVal seqVal (u32 (hc * kHashMul)) es).1,
      mixWord
        (u32 ((seqVal ^^^ hc) * kHashMul) ^^^
          (u32 ((seqVal ^^^ hc) * kHashMul) / 2 ^ kShiftSize))
        e ::
        (mixWithSeqVal seqVal (u32 (hc * kHashMul)) es).2)

/-- Modelled from the spec: outer loop of the seed mixer over the input
sequence, threading the running accumulator. -/
def mixLoop : Nat → List Nat → List Nat → List Nat
  | _, [], material => material
  | hc, s :: ss, material =>
    mixLoop (mixWithSeqVal s hc material).1 ss (mixWithSeqVal s hc material).2

/-- Modelled from the spec: `MixIntoSeedMaterial` — the body lives in
`seed_material.cc`, which is not among the sources; only its declaration
(seed_material.h, lines 90–91) is.  Per the spec: for each input word, each
material word is updated via multiplication by odd mixing constants,
shift-xor stirring and exclusive-or with a running accumulator seeded from
the input word and its position, in `O(M × K)` time. -/
def MixIntoSeedMaterial (sequence seed_material : List Nat) : List Nat :=
  mixLoop kInitVal sequence seed_material

/-- Modelled from the spec: the salt cache's process state — how many OS
entropy reads have occurred and the memoized outcome (`none` meaning "not
yet computed"; `some r` meaning the first call memoized outcome `r`, itself
`none` when that first OS read failed). -/
structure SaltState where
  osReads : Nat
  cache : Option (Option Nat)

/-- Modelled from the spec: `GetSaltMaterial` — the body lives in
`seed_material.cc`, which is not among the sources; only its declaration
(seed_material.h, lines 93–98) is.  Per the spec and the header comment,
the salt is obtained at most once from the OS entropy reader and stored in
a static variable; the memoized outcome (present or absent) is returned to
every later caller with no retry.  `osRead k` is the outcome the OS entropy
reader would produce on its `k`-th invocation. -/
def GetSaltMaterial (osRead : Nat → Option Nat) (st : SaltState) :
    Option Nat × SaltState :=
  match st.cache with
  | some r => (r, st)
  | none => (osRead st.osReads, ⟨st.osReads + 1, some (osRead st.osReads)⟩)

/-! ## Helper lemmas -/

theorem fillWords_length {σ : Type} (distr : σ → Nat × σ) :
    ∀ (n : Nat) (g : σ), ((fillWords distr g n).1).length = n := by
  intro n
  induction n with
  | zero => intro g; rfl
  | succ n ih => intro g; simp [fillWords, ih]

theorem advance_shift {σ : Type} (distr : σ → Nat × σ) :
    ∀ (k : Nat) (g : σ), advance distr (distr g).2 k = advance distr g (k + 1) := by
  intro k
  induction k with
  | zero => intro g; rfl
  | succ k ih => intro g; simp [advance, ih]

theorem fillWords_snd {σ : Type} (distr : σ → Nat × σ) :
    ∀ (n : Nat) (g : σ), (fillWords distr g n).2 = advance distr g n := by
  intro n
  induction n with
  | zero => intro g; rfl
  | succ n ih => intro g; simp [fillWords, ih, advance_shift]

theorem fillWords_get {σ : Type} (distr : σ → Nat × σ) :
    ∀ (n k : Nat) (g : σ), k < n →
      ((fillWords distr g n).1).get? k = some (fubVariate distr g k) := by
  intro n
  induction n with
  | zero => intro k g hk; exact absurd hk (Nat.not_lt_zero k)
  | succ n ih =>
    intro k g hk
    cases k with
    | zero => rfl
    | succ k =>
      have hk' : k < n := Nat.lt_of_succ_lt_succ hk
      show ((distr g).1 :: (fillWords distr (distr g).2 n).1).get? (k + 1) = _
      rw [List.get?_cons_succ, ih k (distr g).2 hk']
      unfold fubVariate
      rw [advance_shift]

theorem advance_counting {σ : Type} (distr : σ → Nat × σ) :
    ∀ (n c : Nat) (g : σ),
      advance (countingDistr distr) (g, c) n = (advance distr g n, c + n) := by
  intro n
  induction n with
  | zero => intro c g; rfl
  | succ n ih =>
    intro c g
    show (countingDistr distr (advance (countingDistr distr) (g, c) n)).2 = _
    rw [ih]
    rfl

theorem mixWithSeqVal_len (s : Nat) :
    ∀ (m : List Nat) (hc : Nat), ((mixWithSeqVal s hc m).2).length = m.length := by
  intro m
  induction m with
  | nil => intro hc; rfl
  | cons e es ih => intro hc; simp [mixWithSeqVal, ih]

theorem mixLoop_nil :
    ∀ (ss : List Nat) (hc : Nat), mixLoop hc ss [] = [] := by
  intro ss
  induction ss with
  | nil => intro hc; rfl
  | cons s ss ih =>
    intro hc
    show mixLoop (mixWithSeqVal s hc []).1 ss (mixWithSeqVal s hc []).2 = []
    exact ih _

theorem mixLoop_len :
    ∀ (ss m : List Nat) (hc : Nat), (mixLoop hc ss m).length = m.length := by
  intro ss
  induction ss with
  | nil => intro m hc; rfl
  | cons s ss ih =>
    intro m hc
    show (mixLoop (mixWithSeqVal s hc m).1 ss (mixWithSeqVal s hc m).2).length
      = m.length
    rw [ih, mixWithSeqVal_len]

/-! ## Claims -/

/-- Claim C1, amended: `SeedBitsToBlocks` computes `ceil(b/32)` — the least
`n` with `b ≤ 32 * n` — for every bit count `b` whose `size_t` computation
`b + 31` does not overflow (`b + 31 < 2 ^ 64`); in particular
`blocksNeeded(0) = 0`, `blocksNeeded(1) = 1`, `blocksNeeded(32) = 1`,
`blocksNeeded(33) = 2`, `blocksNeeded(256) = 8`; the function is pure and
total.  As originally stated — for every non-negative `b` — the claim fails:
see the counterexample at `b = 2 ^ 64 - 1`. -/
theorem seedBitsToBlocks_eq_ceil :
    (∀ b : Nat, b + 31 < 2 ^ 64 →
      SeedBitsToBlocks b = blocksNeeded_spec b ∧
      b ≤ 32 * SeedBitsToBlocks b ∧ 32 * SeedBitsToBlocks b < b + 32) ∧
    SeedBitsToBlocks 0 = 0 ∧ SeedBitsToBlocks 1 = 1 ∧
    SeedBitsToBlocks 32 = 1 ∧ SeedBitsToBlocks 33 = 2 ∧
    SeedBitsToBlocks 256 = 8 := by
  refine ⟨?_, by decide, by decide, by decide, by decide, by decide⟩
  intro b hb
  unfold SeedBitsToBlocks blocksNeeded_spec
  rw [Nat.mod_eq_of_lt hb]
  omega

/-- Witness for C1's amended theorem at the concrete bit count 300. -/
theorem seedBitsToBlocks_eq_ceil_witness :
    SeedBitsToBlocks 300 = blocksNeeded_spec 300 :=
  (seedBitsToBlocks_eq_ceil.1 300 (by decide)).1

/-- Counterexample to C1 as stated: at the valid `size_t` bit count
`b = 2 ^ 64 - 1` the C++ computation wraps (`b + 31 ≡ 30 (mod 2 ^ 64)`) and
returns 0, while `ceil(b/32) = 2 ^ 59`. -/
theorem seedBitsToBlocks_overflow_cex :
    SeedBitsToBlocks (2 ^ 64 - 1) = 0 ∧
    blocksNeeded_spec (2 ^ 64 - 1) = 2 ^ 59 ∧
    SeedBitsToBlocks (2 ^ 64 - 1) ≠ blocksNeeded_spec (2 ^ 64 - 1) := by
  refine ⟨?_, ?_, ?_⟩ <;> decide

/-- Claim C2: with a null generator pointer, `ReadSeedMaterialFromURBG`
returns `false` and leaves the buffer (every word of it) and the generator
unchanged; likewise with a buffer view whose data pointer is null. -/
theorem readSeedMaterialFromURBG_null_fails {σ : Type} (distr : σ → Nat × σ) :
    (∀ values, ReadSeedMaterialFromURBG distr none values = (false, values, none)) ∧
    (∀ urbg : Option σ,
      ReadSeedMaterialFromURBG distr urbg none = (false, none, urbg)) := by
  constructor
  · intro values; cases values <;> rfl
  · intro urbg; cases urbg <;> rfl

/-- Claim C3: with a non-null generator and a non-null buffer view of `N`
words, `ReadSeedMaterialFromURBG` returns `true` and writes all `N` words,
word `k` being the `k`-th 32-bit variate obtained by applying the
width-adapting distribution to the generator. -/
theorem readSeedMaterialFromURBG_fills {σ : Type} (distr : σ → Nat × σ)
    (h32 : ∀ s, (distr s).1 < 2 ^ 32) (g : σ) (vs : List Nat) :
    (ReadSeedMaterialFromURBG distr (some g) (some vs)).1 = true ∧
    ∃ ws, (ReadSeedMaterialFromURBG distr (some g) (some vs)).2.1 = some ws ∧
      ws.length = vs.length ∧
      ∀ k, k < vs.length →
        ws.get? k = some (fubVariate distr g k) ∧ fubVariate distr g k < 2 ^ 32 := by
  refine ⟨rfl, (fillWords distr g vs.length).1, rfl,
    fillWords_length distr vs.length g, ?_⟩
  intro k hk
  exact ⟨fillWords_get distr vs.length k g hk, h32 _⟩

/-- Witness for C3 at a concrete generator and 3-word buffer. -/
theorem readSeedMaterialFromURBG_fills_witness :
    (ReadSeedMaterialFromURBG cDistr (some 5) (some [7, 7, 7])).1 = true :=
  (readSeedMaterialFromURBG_fills cDistr
    (fun s => Nat.mod_lt s (by decide)) 5 [7, 7, 7]).1

/-- Claim C4, amended: for every generator (present or absent), calling
`ReadSeedMaterialFromURBG` with a buffer view whose data pointer is absent
yields failure (`false`), not a crash; an empty view with a present data
pointer instead returns success (`true`) without touching the generator.
As originally stated — every empty buffer view yields failure — the claim
fails: see the counterexample. -/
theorem readSeedMaterialFromURBG_null_data {σ : Type} (distr : σ → Nat × σ) :
    (∀ urbg : Option σ,
      ReadSeedMaterialFromURBG distr urbg none = (false, none, urbg)) ∧
    (∀ g : σ, ReadSeedMaterialFromURBG distr (some g) (some ([] : List Nat))
      = (true, some [], some g)) := by
  constructor
  · intro urbg; cases urbg <;> rfl
  · intro g; rfl

/-- Counterexample to C4 as stated: an empty span whose data pointer is
present (a view of length 0 over a real buffer) makes the function return
`true`, not `false`. -/
theorem readSeedMaterialFromURBG_empty_span_cex :
    ¬ (ReadSeedMaterialFromURBG cDistr (some 0) (some ([] : List Nat))).1 = false := by
  decide

/-- Claim C5, amended: for every strictly positive bit count `b` whose
`size_t` computation does not overflow (`b + 31 < 2 ^ 64`), the block count
`SeedBitsToBlocks b` is strictly positive.  As originally stated — for every
strictly positive `b` — the claim fails at `b = 2 ^ 64 - 1`. -/
theorem seedBitsToBlocks_pos (b : Nat) (h0 : 0 < b) (hb : b + 31 < 2 ^ 64) :
    0 < SeedBitsToBlocks b := by
  unfold SeedBitsToBlocks
  rw [Nat.mod_eq_of_lt hb]
  omega

/-- Witness for C5's amended theorem at the concrete bit count 5. -/
theorem seedBitsToBlocks_pos_witness : 0 < SeedBitsToBlocks 5 :=
  seedBitsToBlocks_pos 5 (by decide) (by decide)

/-- Counterexample to C5 as stated: `b = 2 ^ 64 - 1` is strictly positive
yet the wrapped `size_t` computation yields 0 blocks. -/
theorem seedBitsToBlocks_pos_cex :
    0 < 2 ^ 64 - 1 ∧ SeedBitsToBlocks (2 ^ 64 - 1) = 0 := by
  refine ⟨?_, ?_⟩ <;> decide

/-- Claim C6: `ReadSeedMaterialFromURBG` is deterministic in the
generator's internal state — two runs from identical generator states over
buffers of the same size produce identical return values, identical output
buffers and identical final generator states, whatever the buffers held
before. -/
theorem readSeedMaterialFromURBG_deterministic {σ : Type} (distr : σ → Nat × σ)
    (g : σ) (vs₁ vs₂ : List Nat) (hlen : vs₁.length = vs₂.length) :
    ReadSeedMaterialFromURBG distr (some g) (some vs₁)
      = ReadSeedMaterialFromURBG distr (some g) (some vs₂) := by
  show (true, some (fillWords distr g vs₁.length).1,
      some (fillWords distr g vs₁.length).2) = _
  rw [hlen]
  rfl

/-- Witness for C6 at a concrete generator state and two distinct 2-word
buffers. -/
theorem readSeedMaterialFromURBG_deterministic_witness :
    ReadSeedMaterialFromURBG cDistr (some 0) (some [1, 2])
      = ReadSeedMaterialFromURBG cDistr (some 0) (some [3, 4]) :=
  readSeedMaterialFromURBG_deterministic cDistr 0 [1, 2] [3, 4] rfl

/-- Claim C7: the entropy requirement constant is 256 bits and the derived
block-count constant is `SeedBitsToBlocks kEntropyBitsNeeded = 8` blocks
(also satisfying the header's `static_assert` that it is nonzero). -/
theorem entropyConstants_eq :
    kEntropyBitsNeeded = 256 ∧
    kEntropyBlocksNeeded = SeedBitsToBlocks kEntropyBitsNeeded ∧
    kEntropyBlocksNeeded = 8 ∧ 0 < kEntropyBlocksNeeded := by
  refine ⟨rfl, rfl, ?_, ?_⟩ <;> decide

/-- Claim C8: `MixIntoSeedMaterial` is total over any two buffer views
(here additionally witnessed by its preserving the material's length on all
inputs); mixing an empty sequence leaves every word of the material
unchanged, and mixing any sequence into an empty material buffer is a
no-op. -/
theorem mixIntoSeedMaterial_noop :
    (∀ material : List Nat, MixIntoSeedMaterial [] material = material) ∧
    (∀ sequence : List Nat, MixIntoSeedMaterial sequence [] = []) ∧
    (∀ (sequence material : List Nat),
      (MixIntoSeedMaterial sequence material).length = material.length) :=
  ⟨fun _ => rfl,
   fun sequence => mixLoop_nil sequence kInitVal,
   fun sequence material => mixLoop_len sequence material kInitVal⟩

/-- Claim C9: the salt is computed at most once per process — starting from
the initial (uncomputed) state, a second call returns the first call's
value and leaves the state untouched, exactly one OS read having occurred;
and in general any call finding a memoized outcome returns it unchanged
without a further OS read, the first attempt's failure included. -/
theorem getSaltMaterial_memoized (osRead : Nat → Option Nat) :
    (GetSaltMaterial osRead ⟨0, none⟩).1
      = (GetSaltMaterial osRead (GetSaltMaterial osRead ⟨0, none⟩).2).1 ∧
    (GetSaltMaterial osRead (GetSaltMaterial osRead ⟨0, none⟩).2).2.osReads = 1 ∧
    (GetSaltMaterial osRead (GetSaltMaterial osRead ⟨0, none⟩).2).2
      = (GetSaltMaterial osRead ⟨0, none⟩).2 ∧
    (∀ (st : SaltState) (r : Option Nat), st.cache = some r →
      GetSaltMaterial osRead st = (r, st)) := by
  refine ⟨rfl, rfl, rfl, ?_⟩
  intro st r h
  obtain ⟨n, c⟩ := st
  cases h
  rfl

/-- Witness for C9 with a concrete OS reader: two sequential calls agree,
and a call on a memoized state returns the memoized salt unchanged. -/
theorem getSaltMaterial_memoized_witness :
    (GetSaltMaterial (fun _ => some 42) ⟨0, none⟩).1
      = (GetSaltMaterial (fun _ => some 42)
          (GetSaltMaterial (fun _ => some 42) ⟨0, none⟩).2).1 ∧
    GetSaltMaterial (fun _ => some 42) ⟨3, some (some 7)⟩
      = (some 7, ⟨3, some (some 7)⟩) :=
  ⟨(getSaltMaterial_memoized (fun _ => some 42)).1,
   (getSaltMaterial_memoized (fun _ => some 42)).2.2.2 ⟨3, some (some 7)⟩
     (some 7) rfl⟩

/-- Claim C10: per word of the span, the loop applies the distribution to
the generator exactly once — with the invocation-counting instrumentation
the final generator state records exactly `N` applications for an `N`-word
span; an empty span with a present data pointer returns `true` with zero
applications, and on both null-pointer failure paths the generator is
returned with its state (count included) unchanged. -/
theorem readSeedMaterialFromURBG_invocation_count {σ : Type}
    (distr : σ → Nat × σ) (g : σ) (vs : List Nat) :
    (ReadSeedMaterialFromURBG (countingDistr distr) (some (g, 0)) (some vs)).2.2
      = some (advance distr g vs.length, vs.length) ∧
    ReadSeedMaterialFromURBG (countingDistr distr) (some (g, 0))
      (some ([] : List Nat)) = (true, some [], some (g, 0)) ∧
    (∀ values, ReadSeedMaterialFromURBG (countingDistr distr) none values
      = (false, values, none)) ∧
    ReadSeedMaterialFromURBG (countingDistr distr) (some (g, 0)) none
      = (false, none, some (g, 0)) := by
  refine ⟨?_, rfl, ?_, rfl⟩
  · show some (fillWords (countingDistr distr) (g, 0) vs.length).2 = _
    rw [fillWords_snd, advance_counting, Nat.zero_add]
  · intro values; cases values <;> rfl

end RandomInternal
